import Mathlib

/-!
Shallow embedding of the temporal-snapshot / windowed-sampling core of the
relational-benchmark repository (`rtb/data/dataset.py`), together with models
of the collaborators it imports (`rtb.data.table.Table`, `rtb.data.database.Database`,
`rtb.data.task.Task`, `rtb.utils.rolling_window_sampler`, `rtb.utils.one_window_sampler`),
whose source files are not part of the provided tree and are therefore modelled
from the specification.

Timestamps (`pd.Timestamp`) and window sizes are modelled as rationals `ℚ`;
a `pd.DataFrame` of time windows is a list of `(start, end)` pairs; a Python
call that can raise (`assert`, `KeyError`, `InvalidParameter`) returns an
`Option`, with `none` standing for the raised error.
-/

namespace Rtb

/-- Modelled from the spec: a row of a `Table` (source file `rtb/data/table.py`
is not in the tree). A row has an optional timestamp (non-null whenever the
table declares a time column) and named cells. -/
structure Row where
  time : Option ℚ
  cells : List (String × String)
deriving DecidableEq

/-- Modelled from the spec: `rtb.data.table.Table` (source file
`rtb/data/table.py` is not in the tree). An ordered set of named columns,
an optional time column, and rows. -/
structure Table where
  cols : List String
  time_col : Option String
  rows : List Row
deriving DecidableEq

/-- Modelled from the spec: filtering one table to rows with time ≤ `t`.
A table with no time column is returned unchanged; in a temporal table a row
is kept exactly when its timestamp is present and at most `t`. -/
def Table.time_cutoff (tbl : Table) (t : ℚ) : Table :=
  if tbl.time_col.isSome then
    { tbl with
      rows := tbl.rows.filter fun r =>
        match r.time with
        | some s => decide (s ≤ t)
        | none => false }
  else tbl

/-- Modelled from the spec: the explicit column-drop operation of `Table`
(used by `make_test_table` to redact the label column, source file
`rtb/data/table.py` is not in the tree): the named columns are removed from
the schema and from every row. -/
def Table.drop (tbl : Table) (cs : List String) : Table :=
  { cols := tbl.cols.filter fun c => decide (c ∉ cs)
    time_col := tbl.time_col
    rows := tbl.rows.map fun r =>
      { time := r.time, cells := r.cells.filter fun cell => decide (cell.1 ∉ cs) } }

/-- Modelled from the spec: `rtb.data.database.Database` (source file
`rtb/data/database.py` is not in the tree): a mapping from table name to
`Table`, here an association list. -/
structure Database where
  tables : List (String × Table)
deriving DecidableEq

/-- Modelled from the spec: `Database.time_cutoff(timestamp)` (source file
`rtb/data/database.py` is not in the tree) returns a new `Database` where
every temporal table is filtered to rows with time ≤ `timestamp`;
non-temporal tables are returned unchanged. -/
def Database.time_cutoff (db : Database) (t : ℚ) : Database :=
  ⟨db.tables.map fun p => (p.1, p.2.time_cutoff t)⟩

/-- Modelled from the spec: `rtb.utils.one_window_sampler(reference_time,
window_size)` (source file `rtb/utils.py` is not in the tree) produces the
single window `(reference_time, reference_time + window_size)`; a
non-positive window size is an `InvalidParameter` error (`none`). -/
def one_window_sampler (reference_time window_size : ℚ) : Option (List (ℚ × ℚ)) :=
  if 0 < window_size then
    some [(reference_time, reference_time + window_size)]
  else none

/-- Modelled from the spec: `rtb.utils.rolling_window_sampler(start, end,
window_size, stride)` (source file `rtb/utils.py` is not in the tree)
produces consecutive windows beginning at `start`, each of length
`window_size`, advancing by `stride`, stopping before any window whose end
would exceed `stop`; non-positive window size or stride is an
`InvalidParameter` error (`none`). -/
def rolling_window_sampler (start stop window_size stride : ℚ) : Option (List (ℚ × ℚ)) :=
  if 0 < window_size ∧ 0 < stride then
    if start + window_size ≤ stop then
      some ((List.range (⌊(stop - start - window_size) / stride⌋.toNat + 1)).map
        fun i : ℕ => (start + (i : ℚ) * stride, start + (i : ℚ) * stride + window_size))
    else some []
  else none

/-- Modelled from the spec: `rtb.data.task.Task` (source file
`rtb/data/task.py` is not in the tree): a designated target column and the
capability `make_table(database_snapshot, time_windows) -> Table`. -/
structure Task where
  target_col : String
  make_table : Database → List (ℚ × ℚ) → Table

/-- The `Dataset` state once construction has reached READY
(`rtb/data/dataset.py`): the private full database `_db` (here `db`), the
time range, the two cutoff times and the task registry. -/
structure Dataset where
  db : Database
  min_time : ℚ
  max_time : ℚ
  train_cutoff_time : ℚ
  val_cutoff_time : ℚ
  tasks : List (String × Task)

/-- `Dataset.get_cutoff_times` default policy (`dataset.py` lines 62-68):
`train_cutoff_time = min_time + 0.8 * (max_time - min_time)` and
`val_cutoff_time = min_time + 0.9 * (max_time - min_time)`. -/
def get_cutoff_times (min_time max_time : ℚ) : ℚ × ℚ :=
  (min_time + (8 / 10) * (max_time - min_time),
   min_time + (9 / 10) * (max_time - min_time))

/-- `Dataset.db_snapshot` (`dataset.py` lines 91-97): asserts
`time_stamp ≤ val_cutoff_time` (a failed `assert` raises, modelled `none`)
and then delegates to `Database.time_cutoff`. -/
def db_snapshot (d : Dataset) (time_stamp : ℚ) : Option Database :=
  if time_stamp ≤ d.val_cutoff_time then
    some (d.db.time_cutoff time_stamp)
  else none

/-- `Dataset.db_train` (`dataset.py` lines 99-101). -/
def db_train (d : Dataset) : Option Database :=
  db_snapshot d d.train_cutoff_time

/-- `Dataset.db_val` (`dataset.py` lines 103-105). -/
def db_val (d : Dataset) : Option Database :=
  db_snapshot d d.val_cutoff_time

/-- `Dataset.make_train_table` (`dataset.py` lines 107-130): when
`time_window_df` is not supplied, `window_size` must be (`assert`), and the
windows come from `rolling_window_sampler` over
`[min_time, train_cutoff_time]` with `stride = window_size`; the task's
table is built on `db_train`. -/
def make_train_table (d : Dataset) (task_name : String)
    (window_size : Option ℚ) (time_window_df : Option (List (ℚ × ℚ))) : Option Table :=
  (match time_window_df with
   | some df => some df
   | none => window_size.bind fun w =>
       rolling_window_sampler d.min_time d.train_cutoff_time w w).bind
  fun df => (d.tasks.lookup task_name).bind
  fun task => (db_train d).map
  fun dbt => task.make_table dbt df

/-- `Dataset.make_val_table` (`dataset.py` lines 132-153): same contract but
the default windows are the single `one_window_sampler` window anchored at
`train_cutoff_time`, and the table is built on `db_val`. -/
def make_val_table (d : Dataset) (task_name : String)
    (window_size : Option ℚ) (time_window_df : Option (List (ℚ × ℚ))) : Option Table :=
  (match time_window_df with
   | some df => some df
   | none => window_size.bind fun w =>
       one_window_sampler d.train_cutoff_time w).bind
  fun df => (d.tasks.lookup task_name).bind
  fun task => (db_val d).map
  fun dbv => task.make_table dbv df

/-- `Dataset.make_test_table` (`dataset.py` lines 155-168): a single window
anchored at `val_cutoff_time`, the table built from the full private
database `_db` (not a snapshot), and the target column dropped before the
table is returned. -/
def make_test_table (d : Dataset) (task_name : String) (window_size : ℚ) : Option Table :=
  (d.tasks.lookup task_name).bind fun task =>
    (one_window_sampler d.val_cutoff_time window_size).map fun df =>
      (task.make_table d.db df).drop [task.target_col]

/-- The on-disk state `Dataset.__init__` inspects: whether the raw `done`
sentinel and the processed `done` sentinel exist. -/
structure FS where
  raw_done : Bool
  processed_done : Bool
deriving DecidableEq

/-- Outcome of one run of `Dataset.__init__` (`dataset.py` lines 19-46) over
the sentinel files: the final on-disk state, how many times `download` and
`process` were invoked, and whether the run succeeded. -/
structure InitTrace where
  fs : FS
  downloads : ℕ
  processes : ℕ
  ok : Bool
deriving DecidableEq

/-- The processing phase of `Dataset.__init__` (`dataset.py` lines 30-43):
skipped when the processed sentinel exists; otherwise `process` (and
`db.save`) runs once and the sentinel is touched only if it succeeds. -/
def process_phase (fs : FS) (process_ok : Bool) (downloads : ℕ) : InitTrace :=
  if fs.processed_done then ⟨fs, downloads, 0, true⟩
  else if process_ok then ⟨{ fs with processed_done := true }, downloads, 1, true⟩
  else ⟨fs, downloads, 1, false⟩

/-- `Dataset.__init__` (`dataset.py` lines 19-46) over the sentinel files:
the download phase is skipped when the raw sentinel exists, otherwise
`download` runs once and the sentinel is touched only if it succeeds; a
failed `download` aborts before the processing phase. `download_ok` and
`process_ok` are the outcomes of the external collaborator steps. -/
def dataset_init (fs : FS) (download_ok process_ok : Bool) : InitTrace :=
  if fs.raw_done then process_phase fs process_ok 0
  else if download_ok then process_phase { fs with raw_done := true } process_ok 1
  else ⟨fs, 1, 0, false⟩

/-! Concrete instances used by the witnesses. -/

/-- A concrete temporal table: two timestamped rows at times 1 and 10. -/
def tblEx : Table :=
  ⟨["x", "label"], some "time",
   [⟨some 1, [("x", "1"), ("label", "a")]⟩,
    ⟨some 10, [("x", "2"), ("label", "b")]⟩]⟩

/-- A concrete database with the single temporal table `events`. -/
def dbEx : Database := ⟨[("events", tblEx)]⟩

/-- A concrete task with target column `label`. -/
def taskEx : Task :=
  ⟨"label", fun _ _ => ⟨["x", "label"], none, [⟨none, [("x", "1"), ("label", "y")]⟩]⟩⟩

/-- A concrete READY dataset over `dbEx`: time range `[0, 10]`, cutoffs at
the default 80th and 90th percentile, i.e. 8 and 9. -/
def dEx : Dataset := ⟨dbEx, 0, 10, 8, 9, [("t", taskEx)]⟩

/-- The table `make_test_table dEx "t" 1` returns: `taskEx`'s output with
the `label` column dropped. -/
def tblDropEx : Table := ⟨["x"], none, [⟨none, [("x", "1")]⟩]⟩


/-! Helper lemmas. -/

theorem Table.time_cutoff_time_col (tbl : Table) (t : ℚ) :
    (tbl.time_cutoff t).time_col = tbl.time_col := by
  unfold Table.time_cutoff; split <;> rfl

theorem Table.time_cutoff_mono (tbl : Table) (t1 t2 : ℚ) (h : t1 ≤ t2) :
    ∀ r ∈ (tbl.time_cutoff t1).rows, r ∈ (tbl.time_cutoff t2).rows := by
  intro r hr
  unfold Table.time_cutoff at hr ⊢
  by_cases hc : tbl.time_col.isSome
  · simp only [hc, if_true, List.mem_filter] at hr ⊢
    refine ⟨hr.1, ?_⟩
    have h2 := hr.2
    rcases ht : r.time with _ | s
    · simp [ht] at h2
    · simp [ht] at h2 ⊢
      linarith
  · simp only [hc, if_false] at hr ⊢
    exact hr

theorem Table.time_cutoff_bound (tbl : Table) (t : ℚ) :
    ∀ r ∈ (tbl.time_cutoff t).rows, ∀ s, r.time = some s →
      tbl.time_col.isSome = true → s ≤ t := by
  intro r hr s hs hc
  unfold Table.time_cutoff at hr
  simp only [hc, if_true, List.mem_filter, hs] at hr
  simpa using hr.2

theorem Table.time_cutoff_nontemporal (tbl : Table) (t : ℚ) (hc : tbl.time_col = none) :
    tbl.time_cutoff t = tbl := by
  simp [Table.time_cutoff, hc]

theorem forall₂_map_of_forall {α β : Type} (l : List α) (f g : α → β) (R : β → β → Prop)
    (h : ∀ a ∈ l, R (f a) (g a)) : List.Forall₂ R (l.map f) (l.map g) := by
  induction l with
  | nil => simp
  | cons a l ih =>
    simp only [List.map_cons, List.forall₂_cons]
    exact ⟨h a (by simp), ih fun a ha => h a (by simp [ha])⟩

theorem Table.drop_col_not_mem (tbl : Table) (cs : List String) (c : String) (hc : c ∈ cs) :
    c ∉ (tbl.drop cs).cols := by
  simp only [Table.drop, List.mem_filter, decide_eq_true_eq]
  intro hmem
  exact hmem.2 hc

theorem Table.drop_cell_not_mem (tbl : Table) (cs : List String) :
    ∀ r ∈ (tbl.drop cs).rows, ∀ c ∈ Row.cells r, Prod.fst c ∉ cs := by
  intro r hr c hcell
  simp only [Table.drop, List.mem_map] at hr
  obtain ⟨r0, _, rfl⟩ := hr
  simp only [List.mem_filter, decide_eq_true_eq] at hcell
  exact hcell.2

/-! Claim theorems. -/

/-- C3: `db_snapshot(timestamp)` succeeds and returns
`self._db.time_cutoff(timestamp)` exactly when `timestamp ≤ val_cutoff_time`,
and fails (the `assert` fires) for every `timestamp > val_cutoff_time`. -/
theorem db_snapshot_spec (d : Dataset) (time_stamp : ℚ) :
    (time_stamp ≤ d.val_cutoff_time →
      db_snapshot d time_stamp = some (d.db.time_cutoff time_stamp)) ∧
    (d.val_cutoff_time < time_stamp → db_snapshot d time_stamp = none) := by
  constructor
  · intro h; simp [db_snapshot, h]
  · intro h; simp [db_snapshot, not_le.mpr h]

theorem db_snapshot_spec_witness :
    db_snapshot dEx 5 = some (dEx.db.time_cutoff 5) ∧ db_snapshot dEx 20 = none :=
  ⟨(db_snapshot_spec dEx 5).1 (by decide), (db_snapshot_spec dEx 20).2 (by decide)⟩

/-- C5: whenever the cutoff times are the ones computed by the default
`get_cutoff_times` policy at construction and `min_time ≤ max_time`, the
invariant `min_time ≤ train_cutoff_time ≤ val_cutoff_time ≤ max_time` holds,
and the two cutoffs sit at the 80th and 90th percentile of the range. -/
theorem get_cutoff_times_invariant (d : Dataset)
    (hpolicy : (d.train_cutoff_time, d.val_cutoff_time) =
      get_cutoff_times d.min_time d.max_time)
    (h : d.min_time ≤ d.max_time) :
    d.min_time ≤ d.train_cutoff_time ∧ d.train_cutoff_time ≤ d.val_cutoff_time ∧
    d.val_cutoff_time ≤ d.max_time ∧
    d.train_cutoff_time = d.min_time + (8 / 10) * (d.max_time - d.min_time) ∧
    d.val_cutoff_time = d.min_time + (9 / 10) * (d.max_time - d.min_time) := by
  have h1 := (Prod.ext_iff.mp hpolicy).1
  have h2 := (Prod.ext_iff.mp hpolicy).2
  simp only [get_cutoff_times] at h1 h2
  refine ⟨?_, ?_, ?_, h1, h2⟩ <;> linarith [h1, h2, h]


theorem get_cutoff_times_invariant_witness :
    dEx.min_time ≤ dEx.train_cutoff_time ∧ dEx.train_cutoff_time ≤ dEx.val_cutoff_time ∧
    dEx.val_cutoff_time ≤ dEx.max_time ∧
    dEx.train_cutoff_time = dEx.min_time + (8 / 10) * (dEx.max_time - dEx.min_time) ∧
    dEx.val_cutoff_time = dEx.min_time + (9 / 10) * (dEx.max_time - dEx.min_time) :=
  get_cutoff_times_invariant dEx (by norm_num [dEx, get_cutoff_times]) (by decide)

/-- C10: under the default cutoff policy with `min_time ≤ max_time`, neither
`db_train` nor `db_val` can trigger the `assert` inside `db_snapshot`: both
always succeed and return the corresponding snapshot. -/
theorem db_train_db_val_no_failure (d : Dataset)
    (hpolicy : (d.train_cutoff_time, d.val_cutoff_time) =
      get_cutoff_times d.min_time d.max_time)
    (h : d.min_time ≤ d.max_time) :
    db_train d = some (d.db.time_cutoff d.train_cutoff_time) ∧
    db_val d = some (d.db.time_cutoff d.val_cutoff_time) := by
  have h1 := (Prod.ext_iff.mp hpolicy).1
  have h2 := (Prod.ext_iff.mp hpolicy).2
  simp only [get_cutoff_times] at h1 h2
  have hc : d.train_cutoff_time ≤ d.val_cutoff_time := by linarith
  constructor
  · simp [db_train, db_snapshot, hc]
  · simp [db_val, db_snapshot]

theorem db_train_db_val_no_failure_witness :
    db_train dEx = some (dEx.db.time_cutoff dEx.train_cutoff_time) ∧
    db_val dEx = some (dEx.db.time_cutoff dEx.val_cutoff_time) :=
  db_train_db_val_no_failure dEx (by norm_num [dEx, get_cutoff_times]) (by decide)

/-- C8: `Dataset.__init__` with both `done` sentinels present invokes
`download` and `process` zero times, and a sentinel becomes set only when it
was already set or the corresponding step succeeded in this run. -/
theorem dataset_init_spec (fs : FS) (download_ok process_ok : Bool) :
    (fs.raw_done = true → fs.processed_done = true →
      dataset_init fs download_ok process_ok = ⟨fs, 0, 0, true⟩) ∧
    ((dataset_init fs download_ok process_ok).fs.raw_done = true →
      fs.raw_done = true ∨ download_ok = true) ∧
    ((dataset_init fs download_ok process_ok).fs.processed_done = true →
      fs.processed_done = true ∨ process_ok = true) := by
  rcases fs with ⟨r, p⟩
  cases r <;> cases p <;> cases download_ok <;> cases process_ok <;>
    simp [dataset_init, process_phase]

theorem dataset_init_spec_witness :
    dataset_init ⟨true, true⟩ true true = ⟨⟨true, true⟩, 0, 0, true⟩ :=
  (dataset_init_spec ⟨true, true⟩ true true).1 rfl rfl

/-- C9: when `time_window_df` is supplied, `make_train_table` and
`make_val_table` are independent of the `window_size` argument, and
supplying both raises no error. -/
theorem explicit_windows_spec (d : Dataset) (task_name : String) (df : List (ℚ × ℚ))
    (ws1 ws2 : Option ℚ) (task : Task)
    (ht : d.tasks.lookup task_name = some task)
    (hc : d.train_cutoff_time ≤ d.val_cutoff_time) :
    make_train_table d task_name ws1 (some df) = make_train_table d task_name ws2 (some df) ∧
    make_val_table d task_name ws1 (some df) = make_val_table d task_name ws2 (some df) ∧
    (make_train_table d task_name ws1 (some df)).isSome = true ∧
    (make_val_table d task_name ws1 (some df)).isSome = true := by
  refine ⟨rfl, rfl, ?_, ?_⟩
  · simp [make_train_table, ht, db_train, db_snapshot, hc]
  · simp [make_val_table, ht, db_val, db_snapshot]

theorem explicit_windows_spec_witness :
    make_train_table dEx "t" (some 1) (some [(0, 1)]) =
      make_train_table dEx "t" (some 2) (some [(0, 1)]) ∧
    make_val_table dEx "t" (some 1) (some [(0, 1)]) =
      make_val_table dEx "t" (some 2) (some [(0, 1)]) ∧
    (make_train_table dEx "t" (some 1) (some [(0, 1)])).isSome = true ∧
    (make_val_table dEx "t" (some 1) (some [(0, 1)])).isSome = true :=
  explicit_windows_spec dEx "t" [(0, 1)] (some 1) (some 2) taskEx rfl (by decide)

/-- C4 (amended): when `time_window_df` is absent, `window_size` is required
(`none` otherwise) and the windows come from `rolling_window_sampler` over
`[min_time, train_cutoff_time]` with `stride = window_size`, the table built
by the task on the `db_train` snapshot; when `time_window_df` is supplied it
is used as-is and `window_size` is ignored (supplying both is not an error). -/
theorem make_train_table_spec (d : Dataset) (task_name : String) (window_size : ℚ)
    (task : Task)
    (ht : d.tasks.lookup task_name = some task)
    (hc : d.train_cutoff_time ≤ d.val_cutoff_time) :
    make_train_table d task_name none none = none ∧
    make_train_table d task_name (some window_size) none =
      (rolling_window_sampler d.min_time d.train_cutoff_time window_size window_size).map
        (fun df => task.make_table (d.db.time_cutoff d.train_cutoff_time) df) ∧
    (∀ df : List (ℚ × ℚ), make_train_table d task_name (some window_size) (some df) =
      some (task.make_table (d.db.time_cutoff d.train_cutoff_time) df)) := by
  refine ⟨rfl, ?_, ?_⟩
  · cases hs : rolling_window_sampler d.min_time d.train_cutoff_time window_size window_size <;>
      simp [make_train_table, hs, ht, db_train, db_snapshot, hc]
  · intro df
    simp [make_train_table, ht, db_train, db_snapshot, hc]

/-- C4, counterexample to the claim as stated: supplying both `window_size`
and `time_window_df` is accepted by `make_train_table`, not rejected. -/
theorem make_train_table_both_supplied_not_error :
    (make_train_table dEx "t" (some 2) (some [(0, 1)])).isSome = true := by decide

theorem make_train_table_spec_witness :
    make_train_table dEx "t" none none = none ∧
    make_train_table dEx "t" (some 3) none =
      (rolling_window_sampler dEx.min_time dEx.train_cutoff_time 3 3).map
        (fun df => taskEx.make_table (dEx.db.time_cutoff dEx.train_cutoff_time) df) ∧
    (∀ df : List (ℚ × ℚ), make_train_table dEx "t" (some 3) (some df) =
      some (taskEx.make_table (dEx.db.time_cutoff dEx.train_cutoff_time) df)) :=
  make_train_table_spec dEx "t" 3 taskEx rfl (by decide)

/-- C7: `one_window_sampler` produces the single window
`(reference_time, reference_time + window_size)`, and `make_val_table` with
only a window size builds the task's table on the `db_val` snapshot from the
single window anchored at `train_cutoff_time`. -/
theorem one_window_sampler_spec (reference_time window_size : ℚ) (hw : 0 < window_size)
    (d : Dataset) (task_name : String) (task : Task)
    (ht : d.tasks.lookup task_name = some task) :
    one_window_sampler reference_time window_size =
      some [(reference_time, reference_time + window_size)] ∧
    make_val_table d task_name (some window_size) none =
      some (task.make_table (d.db.time_cutoff d.val_cutoff_time)
        [(d.train_cutoff_time, d.train_cutoff_time + window_size)]) := by
  constructor
  · simp [one_window_sampler, hw]
  · simp [make_val_table, one_window_sampler, hw, ht, db_val, db_snapshot]

theorem one_window_sampler_spec_witness :
    one_window_sampler 50 20 = some [(50, 50 + 20)] ∧
    make_val_table dEx "t" (some 20) none =
      some (taskEx.make_table (dEx.db.time_cutoff dEx.val_cutoff_time)
        [(dEx.train_cutoff_time, dEx.train_cutoff_time + 20)]) :=
  one_window_sampler_spec 50 20 (by decide) dEx "t" taskEx rfl


/-- C1: `make_test_table` builds the task's table from the full private
database (not a snapshot) and removes the target column before returning:
any returned table contains the target column neither in its schema nor in
any row's cells. -/
theorem make_test_table_spec (d : Dataset) (task_name : String) (window_size : ℚ)
    (task : Task) (tbl : Table)
    (ht : d.tasks.lookup task_name = some task)
    (hmk : make_test_table d task_name window_size = some tbl) :
    task.target_col ∉ tbl.cols ∧
    (∀ r ∈ tbl.rows, ∀ c ∈ Row.cells r, Prod.fst c ≠ task.target_col) ∧
    tbl = (task.make_table d.db
      [(d.val_cutoff_time, d.val_cutoff_time + window_size)]).drop [task.target_col] := by
  rw [make_test_table, ht] at hmk
  by_cases hw : 0 < window_size
  · simp only [one_window_sampler, hw, if_true, Option.some_bind, Option.map_some',
      Option.some.injEq] at hmk
    subst hmk
    refine ⟨?_, ?_, rfl⟩
    · exact Table.drop_col_not_mem _ _ _ (by simp)
    · intro r hr c hcell
      have := Table.drop_cell_not_mem _ _ r hr c hcell
      simpa using this
  · simp [one_window_sampler, hw] at hmk

theorem make_test_table_spec_witness :
    taskEx.target_col ∉ tblDropEx.cols ∧
    (∀ r ∈ tblDropEx.rows, ∀ c ∈ Row.cells r, Prod.fst c ≠ taskEx.target_col) ∧
    tblDropEx = (taskEx.make_table dEx.db
      [(dEx.val_cutoff_time, dEx.val_cutoff_time + 1)]).drop [taskEx.target_col] :=
  make_test_table_spec dEx "t" 1 taskEx tblDropEx rfl (by rfl)

/-- C2: for `T1 ≤ T2`, every table of `time_cutoff(T1)` keeps its name and
its rows are contained in the corresponding table of `time_cutoff(T2)`; a
snapshot at `t` holds no timestamped row beyond `t` in any temporal table;
and non-temporal tables pass through `time_cutoff` unchanged. -/
theorem time_cutoff_spec (db : Database) (t1 t2 t : ℚ) (h : t1 ≤ t2) :
    List.Forall₂ (fun p q => p.1 = q.1 ∧ ∀ r ∈ (Prod.snd p).rows, r ∈ (Prod.snd q).rows)
      (db.time_cutoff t1).tables (db.time_cutoff t2).tables ∧
    (∀ p ∈ (db.time_cutoff t).tables, (Prod.snd p).time_col.isSome = true →
      ∀ r ∈ (Prod.snd p).rows, ∀ s, Row.time r = some s → s ≤ t) ∧
    (∀ p ∈ db.tables, (Prod.snd p).time_col = none →
      Table.time_cutoff (Prod.snd p) t = Prod.snd p) := by
  refine ⟨?_, ?_, ?_⟩
  · exact forall₂_map_of_forall db.tables _ _ _
      (fun a _ => ⟨rfl, Table.time_cutoff_mono a.2 t1 t2 h⟩)
  · intro p hp hc r hr s hs
    simp only [Database.time_cutoff, List.mem_map] at hp
    obtain ⟨q, _, rfl⟩ := hp
    exact Table.time_cutoff_bound q.2 t r hr s hs (by
      simpa [Table.time_cutoff_time_col] using hc)
  · intro p _ hc
    exact Table.time_cutoff_nontemporal p.2 t hc


theorem time_cutoff_spec_witness :
    List.Forall₂ (fun p q => p.1 = q.1 ∧ ∀ r ∈ (Prod.snd p).rows, r ∈ (Prod.snd q).rows)
      (dbEx.time_cutoff 1).tables (dbEx.time_cutoff 2).tables ∧
    (∀ p ∈ (dbEx.time_cutoff 5).tables, (Prod.snd p).time_col.isSome = true →
      ∀ r ∈ (Prod.snd p).rows, ∀ s, Row.time r = some s → s ≤ 5) ∧
    (∀ p ∈ dbEx.tables, (Prod.snd p).time_col = none →
      Table.time_cutoff (Prod.snd p) 5 = Prod.snd p) :=
  time_cutoff_spec dbEx 1 2 5 (by decide)

/-- C6: for positive window size and stride, `rolling_window_sampler`
produces consecutive windows beginning at `start`, each of length exactly
`window_size`, advancing by `stride`, stopping before any window whose end
would exceed `stop`; and the two concrete runs of the spec produce exactly
the stated windows. -/
theorem rolling_window_sampler_spec (start stop window_size stride : ℚ)
    (hse : start ≤ stop) (hw : 0 < window_size) (hst : 0 < stride) :
    (∃ L, rolling_window_sampler start stop window_size stride = some L ∧
      (∀ (i : ℕ) (hi : i < L.length),
        L.get ⟨i, hi⟩ = (start + (i : ℚ) * stride, start + (i : ℚ) * stride + window_size)) ∧
      (∀ p ∈ L, p.2 - p.1 = window_size ∧ p.2 ≤ stop) ∧
      stop < start + L.length * stride + window_size) ∧
    rolling_window_sampler 0 100 10 10 =
      some [(0, 10), (10, 20), (20, 30), (30, 40), (40, 50),
            (50, 60), (60, 70), (70, 80), (80, 90), (90, 100)] ∧
    rolling_window_sampler 0 95 10 10 =
      some [(0, 10), (10, 20), (20, 30), (30, 40), (40, 50),
            (50, 60), (60, 70), (70, 80), (80, 90)] := by
  refine ⟨?_,
    by norm_num [rolling_window_sampler, List.range_succ, show Int.toNat 9 = 9 from rfl],
    by norm_num [rolling_window_sampler, List.range_succ, show Int.toNat 8 = 8 from rfl]⟩
  rw [rolling_window_sampler, if_pos ⟨hw, hst⟩]
  by_cases hend : start + window_size ≤ stop
  · rw [if_pos hend]
    set x : ℚ := stop - start - window_size with hx
    have hx0 : 0 ≤ x := by rw [hx]; linarith
    have hfl0 : (0 : ℤ) ≤ ⌊x / stride⌋ := Int.floor_nonneg.mpr (div_nonneg hx0 hst.le)
    refine ⟨_, rfl, ?_, ?_, ?_⟩
    · intro i hi
      simp [List.get_eq_getElem]
    · intro p hp
      simp only [List.mem_map, List.mem_range] at hp
      obtain ⟨i, hi, rfl⟩ := hp
      refine ⟨by ring, ?_⟩
      have hi2 : (i : ℤ) ≤ ⌊x / stride⌋ := by
        have := Nat.lt_succ_iff.mp hi
        omega
      have hirat : (i : ℚ) ≤ x / stride := by
        have := Int.le_floor.mp hi2
        exact_mod_cast this
      have hmul := (le_div_iff₀ hst).mp hirat
      simp only
      linarith
    · simp only [List.length_map, List.length_range]
      have hlt : x / stride < (⌊x / stride⌋ : ℚ) + 1 := Int.lt_floor_add_one _
      have h1 : (⌊x / stride⌋.toNat : ℤ) = ⌊x / stride⌋ := Int.toNat_of_nonneg hfl0
      have hcast : ((⌊x / stride⌋.toNat + 1 : ℕ) : ℚ) = (⌊x / stride⌋ : ℚ) + 1 := by
        exact_mod_cast congrArg (fun z : ℤ => (z : ℚ) + 1) h1
      have hmul := (div_lt_iff₀ hst).mp hlt
      have hlen : ((⌊x / stride⌋.toNat + 1 : ℕ) : ℚ) * stride =
          ((⌊x / stride⌋ : ℚ) + 1) * stride := by rw [hcast]
      nlinarith [hlen, hmul]
  · rw [if_neg hend]
    push_neg at hend
    refine ⟨[], rfl, ?_, ?_, ?_⟩
    · intro i hi
      simp at hi
    · intro p hp
      simp at hp
    · simp only [List.length_nil, Nat.cast_zero, zero_mul, add_zero]
      linarith

theorem rolling_window_sampler_spec_witness :
    (∃ L, rolling_window_sampler 0 100 10 10 = some L ∧
      (∀ (i : ℕ) (hi : i < L.length),
        L.get ⟨i, hi⟩ = (0 + (i : ℚ) * 10, 0 + (i : ℚ) * 10 + 10)) ∧
      (∀ p ∈ L, p.2 - p.1 = 10 ∧ p.2 ≤ 100) ∧
      (100 : ℚ) < 0 + L.length * 10 + 10) ∧
    rolling_window_sampler 0 100 10 10 =
      some [(0, 10), (10, 20), (20, 30), (30, 40), (40, 50),
            (50, 60), (60, 70), (70, 80), (80, 90), (90, 100)] ∧
    rolling_window_sampler 0 95 10 10 =
      some [(0, 10), (10, 20), (20, 30), (30, 40), (40, 50),
            (50, 60), (60, 70), (70, 80), (80, 90)] :=
  rolling_window_sampler_spec 0 100 10 10 (by decide) (by decide) (by decide)

end Rtb
